import Mathlib

/-!
Verification of the ACSM ebook converter (converter.py / app.py).

This file shallowly embeds the job-orchestration core of the repository:

* `detect_format` — converter.py, format sniffing on the ACSM token's
  `<src>` element text;
* `convert_pipeline` — converter.py, the 5-step generator that performs the
  conversion and yields `(step, message)` events; external effects (tool
  lookup, XML parsing, device registration, download, DRM removal) are
  modelled by a `PipelineEnv` record holding each external call's outcome;
* `run_conversion_job`, `job_status`, `job_id` — app.py, the background job
  runner and its polling registry (`active_jobs`);
* `convert_epub`, `stop_convert` — app.py, the per-stem supervisor of
  `ebook-convert` subprocesses (`active_conversions`), with the filesystem
  modelled as the sets of `<stem>.pdf` / `<stem>.epub` files present in the
  output directory.

Machine integers do not occur; Python strings are Lean `String`s, Python
exceptions are an explicit `PyError` sum carried in an `Except`/`Option`
channel.
-/

namespace Acsm

/-- An event yielded by the `convert_pipeline` generator: a numbered step
with its message, or the terminal `("done", message)` event. -/
inductive Event where
  | step (n : Nat) (msg : String)
  | done (msg : String)
deriving DecidableEq, Repr

/-- A Python exception as seen by the job runner: `RuntimeError` (the
pipeline's recoverable error kind) or any other exception class. -/
inductive PyError where
  | runtimeError (msg : String)
  | otherError (msg : String)
deriving DecidableEq, Repr

/-- `needle.isPrefixOfL hay`: the first list starts the second
(Python string prefix, used to build substring containment). -/
def isPrefixOfL : List Char → List Char → Bool
  | [], _ => true
  | _ :: _, [] => false
  | a :: as, b :: bs => a == b && isPrefixOfL as bs

/-- `strContainsAux needle hay`: `needle` occurs as a contiguous sublist of
`hay`. -/
def strContainsAux (needle : List Char) : List Char → Bool
  | [] => needle.isEmpty
  | c :: cs => isPrefixOfL needle (c :: cs) || strContainsAux needle cs

/-- Python's `needle in hay` on strings: substring containment. -/
def strContains (hay needle : String) : Bool :=
  strContainsAux needle.data hay.data

/-- Python `str.lower()` (same as `String.toLower`, stated on the character
list so that it evaluates by reduction). -/
def lowerStr (s : String) : String := ⟨s.data.map Char.toLower⟩

/-- Python `str.upper()` (same as `String.toUpper`, stated on the character
list so that it evaluates by reduction). -/
def upperStr (s : String) : String := ⟨s.data.map Char.toUpper⟩

/-- converter.py `detect_format`: the `<adept:src>` element's text
(`none` models an absent element, `some ""` an empty text, both falsy in
Python). Lowercase the text; `.pdf`/`output=pdf` wins, then
`.epub`/`output=epub`, else default `"pdf"`. -/
def detect_format (srcText : Option String) : String :=
  match srcText with
  | none => "pdf"
  | some t =>
    if t = "" then "pdf"
    else
      let src := lowerStr t
      if strContains src ".pdf" || strContains src "output=pdf" then "pdf"
      else if strContains src ".epub" || strContains src "output=epub" then "epub"
      else "pdf"

/-- The outcomes of every external interaction one `convert_pipeline` run
performs, fixed up front: filesystem facts about the input path, the three
`find_tool` lookups of step 1, the XML parse (`.ok` carries the `<src>`
text passed to `detect_format`), and the three external calls of steps 3-5
(`register_device`, `fulfill_acsm`, `remove_drm`), each either returning or
raising. `sizeDisplay` is the final file's size as formatted for the done
message (a filesystem fact, e.g. `"1.4"`). -/
structure PipelineEnv where
  pathStr : String
  acsmExists : Bool
  suffix : String
  stem : String
  toolAcsm : Option String
  toolActivate : Option String
  toolRemove : Option String
  parseResult : Except PyError (Option String)
  registerResult : Except PyError Unit
  fulfillResult : Except PyError Unit
  removeDrmResult : Except PyError Unit
  sizeDisplay : String

/-- The problem string appended once per missing libgourou tool in step 1 of
`convert_pipeline` (identical for all three tools). -/
def libgourouProblem : String :=
  "libgourou not built (run: python3 converter.py --setup)"

/-- The `problems` list built by step 1 of `convert_pipeline`: one entry per
required executable that does not resolve. -/
def toolProblems (env : PipelineEnv) : List String :=
  (if env.toolAcsm.isNone then [libgourouProblem] else []) ++
  (if env.toolActivate.isNone then [libgourouProblem] else []) ++
  (if env.toolRemove.isNone then [libgourouProblem] else [])

/-- converter.py `convert_pipeline`: returns the list of events the
generator yielded before finishing or raising, together with the exception
raised (`none` on normal completion). Python's `set(problems)` is modelled
by `List.dedup`. -/
def convert_pipeline (env : PipelineEnv) : List Event × Option PyError :=
  if env.acsmExists then
    if env.suffix = ".acsm" then
      if toolProblems env = [] then
        let ev1 := [Event.step 1 "All tools ready."]
        match env.parseResult with
        | .error e => (ev1, some e)
        | .ok srcText =>
          let fmt := detect_format srcText
          let ev2 := ev1 ++ [Event.step 2 ("Detected format: " ++ upperStr fmt)]
          match env.registerResult with
          | .error e => (ev2, some e)
          | .ok _ =>
            let ev3 := ev2 ++ [Event.step 3 "Device registered."]
            match env.fulfillResult with
            | .error e => (ev3, some e)
            | .ok _ =>
              let drmName := env.stem ++ "_drm." ++ fmt
              let ev4 := ev3 ++ [Event.step 4 ("Downloaded: " ++ drmName)]
              match env.removeDrmResult with
              | .error e => (ev4, some e)
              | .ok _ =>
                let cleanName := env.stem ++ "." ++ fmt
                let ev5 := ev4 ++ [Event.step 5 ("DRM removed: " ++ cleanName)]
                (ev5 ++ [Event.done ("Conversion complete! File: " ++ cleanName ++
                  " (" ++ env.sizeDisplay ++ " MB)")], none)
      else
        ([], some (.runtimeError ("Missing components: " ++
          String.intercalate "; " (toolProblems env).dedup)))
    else
      ([], some (.runtimeError ("Not an ACSM file: " ++ env.pathStr)))
  else
    ([], some (.runtimeError ("File not found: " ++ env.pathStr)))

/-- The step number of an event (`none` for the terminal done event). -/
def stepNum : Event → Option Nat
  | .step n _ => some n
  | .done _ => none

/-- app.py `STEP_LABELS`: the five progress labels. The Python dict is only
ever indexed with keys 1..5 (guarded by `next_step <= total`); the default
branch is unreachable in those uses. -/
def STEP_LABELS : Nat → String
  | 1 => "Checking tools..."
  | 2 => "Detecting format..."
  | 3 => "Registering Adobe device..."
  | 4 => "Downloading ebook..."
  | 5 => "Removing DRM..."
  | _ => ""

/-- app.py: one entry of `active_jobs`, as created by `start_convert` and
mutated by `run_conversion_job`. -/
structure Job where
  filename : String
  status : String
  steps : List Event
  current_step : Nat
  current_label : String
  error : Option String
  done_message : Option String
  start_time : Nat
deriving DecidableEq, Repr

/-- app.py `start_convert`: the fresh record placed in `active_jobs`. -/
def newJob (filename : String) (now : Nat) : Job :=
  { filename := filename, status := "running", steps := [], current_step := 0,
    current_label := "", error := none, done_message := none, start_time := now }

/-- app.py `start_convert`: `job_id = f"{filename}_{int(time.time())}"`.
The clock is modelled in milliseconds, so Python's `int(time.time())`
truncation to whole seconds is `nowMillis / 1000`. -/
def job_id (filename : String) (nowMillis : Nat) : String :=
  filename ++ "_" ++ toString (nowMillis / 1000)

/-- The body of the `for step, message in convert_pipeline(...)` loop in
app.py `run_conversion_job`: append the event to the step log; a done event
sets status/done_message, a numbered step advances `current_step` (and its
label) to the next step when that does not exceed 5. -/
def processEvent (job : Job) (ev : Event) : Job :=
  match ev with
  | .done m =>
    { job with steps := job.steps ++ [ev], status := "done", done_message := some m }
  | .step n _ =>
    let job1 := { job with steps := job.steps ++ [ev] }
    if n + 1 ≤ 5 then
      { job1 with current_step := n + 1, current_label := STEP_LABELS (n + 1) }
    else job1

/-- app.py `run_conversion_job`, applied to the outcome `r` of one
`convert_pipeline` run (the events the generator yielded before finishing
or raising, and the exception if one was raised): initialise
`current_step`/`current_label`, drain the events, then handle
`except RuntimeError` / `except Exception`. Always returns a record —
the background thread never re-raises. -/
def run_conversion_job (job : Job) (r : List Event × Option PyError) : Job :=
  let job1 := { job with current_step := 1, current_label := STEP_LABELS 1 }
  let job2 := r.1.foldl processEvent job1
  match r.2 with
  | none => job2
  | some (.runtimeError m) => { job2 with status := "error", error := some m }
  | some (.otherError m) =>
    { job2 with status := "error", error := some ("Unexpected error: " ++ m) }

/-- The sequence of job records a poller can observe while
`run_conversion_job` processes `r`: the record as submitted, the record
after initialisation and after each processed event, and the final record
(after exception handling). -/
def jobStates (job : Job) (r : List Event × Option PyError) : List Job :=
  job ::
    (r.1.scanl processEvent { job with current_step := 1, current_label := STEP_LABELS 1 }
      ++ [run_conversion_job job r])

/-- app.py `job_status`: polling an identifier not in `active_jobs` answers
404 "Job not found"; otherwise the job's current record is returned. -/
def job_status (jobs : List (String × Job)) (jid : String) : Except String Job :=
  match jobs.lookup jid with
  | none => .error "Job not found"
  | some j => .ok j

/-- app.py: one entry of `active_conversions`: the supervised
`ebook-convert` subprocess for one stem. `procExited` is true when
`proc.poll()` returns a return code (the process has exited). -/
structure ConvTask where
  procExited : Bool
  start_time : Nat
deriving DecidableEq, Repr

/-- The state touched by app.py's conversion supervisor: the
`active_conversions` registry and the output directory's contents —
`pdfFiles` / `epubFiles` are the stems for which `<stem>.pdf` /
`<stem>.epub` exist — plus whether `find_ebook_convert()` resolves. -/
structure SupState where
  tasks : List (String × ConvTask)
  pdfFiles : List String
  epubFiles : List String
  toolFound : Bool
deriving DecidableEq, Repr

/-- Result of app.py `convert_epub` (HTTP status in comments). -/
inductive StartResp where
  | alreadyRunning   -- 409 {"status": "already_running"}
  | pdfNotFound      -- 404 "PDF not found"
  | epubExists       -- 409 "EPUB already exists"
  | calibreMissing   -- 500 "Calibre not installed"
  | started          -- 200 {"status": "started"}
deriving DecidableEq, Repr

/-- Result of app.py `stop_convert`. -/
inductive StopResp where
  | notFound   -- 404
  | stopped    -- 200
deriving DecidableEq, Repr

/-- The first guard of app.py `convert_epub`: a task is tracked for this
stem and its subprocess has not exited (`proc.poll() is None`). -/
def taskRunning (st : SupState) (stem : String) : Bool :=
  match st.tasks.lookup stem with
  | some t => !t.procExited
  | none => false

/-- app.py `convert_epub` for a (sanitized) stem: reject while a tracked
subprocess is still running; 404 without `<stem>.pdf`; 409 when
`<stem>.epub` already exists; 500 without Calibre; otherwise launch
`ebook-convert` and store the task under the stem (Python dict assignment:
any previous record for the stem is replaced). -/
def convert_epub (st : SupState) (stem : String) (now : Nat) : SupState × StartResp :=
  if taskRunning st stem then (st, .alreadyRunning)
  else if !(st.pdfFiles.contains stem) then (st, .pdfNotFound)
  else if st.epubFiles.contains stem then (st, .epubExists)
  else if !st.toolFound then (st, .calibreMissing)
  else
    ({ st with tasks :=
        (stem, ⟨false, now⟩) :: st.tasks.filter (fun p => !(p.1 == stem)) },
     .started)

/-- app.py `stop_convert` for a (sanitized) stem: 404 when no task is
tracked; otherwise kill the subprocess if still running (no effect on the
modelled state), drop the task record, and unlink `<stem>.epub` if it
exists. -/
def stop_convert (st : SupState) (stem : String) : SupState × StopResp :=
  match st.tasks.lookup stem with
  | none => (st, .notFound)
  | some _ =>
    ({ st with tasks := st.tasks.filter (fun p => !(p.1 == stem)),
               epubFiles := st.epubFiles.filter (fun s => !(s == stem)) },
     .stopped)

/-- A concrete environment in which every external interaction succeeds. -/
def envOk : PipelineEnv :=
  { pathStr := "uploads/book.acsm", acsmExists := true, suffix := ".acsm",
    stem := "book", toolAcsm := some "libgourou/utils/acsmdownloader",
    toolActivate := some "libgourou/utils/adept_activate",
    toolRemove := some "libgourou/utils/adept_remove",
    parseResult := .ok (some "http://example.com/fulfill?file=book.epub"),
    registerResult := .ok (), fulfillResult := .ok (),
    removeDrmResult := .ok (), sizeDisplay := "1.4" }

/-- `envOk` with none of the three libgourou executables resolving. -/
def envNoTools : PipelineEnv :=
  { envOk with toolAcsm := none, toolActivate := none, toolRemove := none }

/-- `envOk` with the input file absent. -/
def envNoFile : PipelineEnv := { envOk with acsmExists := false }

/-- `envOk` with the download step raising
`RuntimeError("Download timed out (120s). ...")`. -/
def envFulfillFails : PipelineEnv :=
  { envOk with fulfillResult := .error (.runtimeError
      "Download timed out (120s). The ACSM token may be expired or the server is unreachable.") }

/-- Supervisor state: a still-running conversion task for `"book"`. -/
def stRunning : SupState :=
  { tasks := [("book", ⟨false, 3⟩)], pdfFiles := ["book"], epubFiles := [],
    toolFound := true }

/-- Supervisor state: a stale (already-exited) conversion task for `"book"`. -/
def stStale : SupState :=
  { tasks := [("book", ⟨true, 3⟩)], pdfFiles := ["book"], epubFiles := [],
    toolFound := true }

/-- Supervisor state: no task tracked, `book.pdf` present, `book.epub`
absent, Calibre available. -/
def stFree : SupState :=
  { tasks := [], pdfFiles := ["book"], epubFiles := [], toolFound := true }

/-- Decimal decoding of a digit string, with accumulator: left inverse of
the decimal rendering used by `job_id`'s timestamp component (used to show
that rendering is injective). -/
def decodeFrom (acc : Nat) : List Char → Nat
  | [] => acc
  | c :: cs => decodeFrom (acc * 10 + (c.toNat - 48)) cs

end Acsm

namespace Acsm

/-! ### Branch lemmas for `convert_pipeline` -/

/-- Missing input file: raise before yielding anything. -/
theorem cp_noFile (env : PipelineEnv) (h : env.acsmExists = false) :
    convert_pipeline env =
      ([], some (.runtimeError ("File not found: " ++ env.pathStr))) := by
  simp [convert_pipeline, h]

/-- Wrong extension: raise before yielding anything. -/
theorem cp_badSuffix (env : PipelineEnv) (h1 : env.acsmExists = true)
    (h2 : ¬env.suffix = ".acsm") :
    convert_pipeline env =
      ([], some (.runtimeError ("Not an ACSM file: " ++ env.pathStr))) := by
  simp [convert_pipeline, h1, h2]

/-- Step 1 fails: raise before yielding anything, message from the
deduplicated problem list. -/
theorem cp_missingTools (env : PipelineEnv) (h1 : env.acsmExists = true)
    (h2 : env.suffix = ".acsm") (h3 : ¬toolProblems env = []) :
    convert_pipeline env =
      ([], some (.runtimeError ("Missing components: " ++
        String.intercalate "; " (toolProblems env).dedup))) := by
  simp [convert_pipeline, h1, h2, h3]

/-- XML parsing raises during step 2: only step 1 was yielded. -/
theorem cp_parseError (env : PipelineEnv) (e : PyError) (h1 : env.acsmExists = true)
    (h2 : env.suffix = ".acsm") (h3 : toolProblems env = [])
    (h4 : env.parseResult = .error e) :
    convert_pipeline env = ([Event.step 1 "All tools ready."], some e) := by
  simp [convert_pipeline, h1, h2, h3, h4]

/-- `register_device` raises during step 3: steps 1-2 were yielded. -/
theorem cp_registerError (env : PipelineEnv) (e : PyError) (srcText : Option String)
    (h1 : env.acsmExists = true) (h2 : env.suffix = ".acsm")
    (h3 : toolProblems env = []) (h4 : env.parseResult = .ok srcText)
    (h5 : env.registerResult = .error e) :
    convert_pipeline env =
      ([Event.step 1 "All tools ready.",
        Event.step 2 ("Detected format: " ++ upperStr (detect_format srcText))],
       some e) := by
  simp [convert_pipeline, h1, h2, h3, h4, h5]

/-- `fulfill_acsm` raises during step 4: steps 1-3 were yielded. -/
theorem cp_fulfillError (env : PipelineEnv) (e : PyError) (srcText : Option String)
    (h1 : env.acsmExists = true) (h2 : env.suffix = ".acsm")
    (h3 : toolProblems env = []) (h4 : env.parseResult = .ok srcText)
    (h5 : env.registerResult = .ok ()) (h6 : env.fulfillResult = .error e) :
    convert_pipeline env =
      ([Event.step 1 "All tools ready.",
        Event.step 2 ("Detected format: " ++ upperStr (detect_format srcText)),
        Event.step 3 "Device registered."],
       some e) := by
  simp [convert_pipeline, h1, h2, h3, h4, h5, h6]

/-- `remove_drm` raises during step 5: steps 1-4 were yielded. -/
theorem cp_removeDrmError (env : PipelineEnv) (e : PyError) (srcText : Option String)
    (h1 : env.acsmExists = true) (h2 : env.suffix = ".acsm")
    (h3 : toolProblems env = []) (h4 : env.parseResult = .ok srcText)
    (h5 : env.registerResult = .ok ()) (h6 : env.fulfillResult = .ok ())
    (h7 : env.removeDrmResult = .error e) :
    convert_pipeline env =
      ([Event.step 1 "All tools ready.",
        Event.step 2 ("Detected format: " ++ upperStr (detect_format srcText)),
        Event.step 3 "Device registered.",
        Event.step 4 ("Downloaded: " ++ (env.stem ++ "_drm." ++ detect_format srcText))],
       some e) := by
  simp [convert_pipeline, h1, h2, h3, h4, h5, h6, h7]

/-- Full success: steps 1-5 then done, no exception. -/
theorem cp_success (env : PipelineEnv) (srcText : Option String)
    (h1 : env.acsmExists = true) (h2 : env.suffix = ".acsm")
    (h3 : toolProblems env = []) (h4 : env.parseResult = .ok srcText)
    (h5 : env.registerResult = .ok ()) (h6 : env.fulfillResult = .ok ())
    (h7 : env.removeDrmResult = .ok ()) :
    convert_pipeline env =
      ([Event.step 1 "All tools ready.",
        Event.step 2 ("Detected format: " ++ upperStr (detect_format srcText)),
        Event.step 3 "Device registered.",
        Event.step 4 ("Downloaded: " ++ (env.stem ++ "_drm." ++ detect_format srcText)),
        Event.step 5 ("DRM removed: " ++ (env.stem ++ "." ++ detect_format srcText)),
        Event.done ("Conversion complete! File: " ++ (env.stem ++ "." ++ detect_format srcText) ++
          " (" ++ env.sizeDisplay ++ " MB)")],
       none) := by
  simp [convert_pipeline, h1, h2, h3, h4, h5, h6, h7]

end Acsm

namespace Acsm

/-- C1: a pipeline run consumed to completion without an exception yields
exactly the step events 1,2,3,4,5 in strictly ascending order, each once,
followed by exactly one terminal done event; a run that raises yields an
ascending initial segment of step events 1..k and nothing after the raise
(in particular no done event and no repeated step). -/
theorem convert_pipeline_event_order (env : PipelineEnv) :
    ((convert_pipeline env).2 = none →
      ∃ m1 m2 m3 m4 m5 m6, (convert_pipeline env).1 =
        [Event.step 1 m1, Event.step 2 m2, Event.step 3 m3,
         Event.step 4 m4, Event.step 5 m5, Event.done m6])
    ∧ ((convert_pipeline env).2 ≠ none →
      (convert_pipeline env).1.map stepNum =
        (List.range' 1 (convert_pipeline env).1.length).map some) := by
  cases hE : env.acsmExists with
  | false =>
    rw [cp_noFile env hE]
    exact ⟨by simp, by simp⟩
  | true =>
    by_cases hS : env.suffix = ".acsm"
    · by_cases hT : toolProblems env = []
      · cases hP : env.parseResult with
        | error e =>
          rw [cp_parseError env e hE hS hT hP]
          exact ⟨by simp, fun _ => by simp [stepNum, List.range']⟩
        | ok srcText =>
          cases hR : env.registerResult with
          | error e =>
            rw [cp_registerError env e srcText hE hS hT hP hR]
            exact ⟨by simp, fun _ => by simp [stepNum, List.range']⟩
          | ok u =>
            cases u
            cases hF : env.fulfillResult with
            | error e =>
              rw [cp_fulfillError env e srcText hE hS hT hP hR hF]
              exact ⟨by simp, fun _ => by simp [stepNum, List.range']⟩
            | ok u =>
              cases u
              cases hD : env.removeDrmResult with
              | error e =>
                rw [cp_removeDrmError env e srcText hE hS hT hP hR hF hD]
                exact ⟨by simp, fun _ => by simp [stepNum, List.range']⟩
              | ok u =>
                cases u
                rw [cp_success env srcText hE hS hT hP hR hF hD]
                exact ⟨fun _ => ⟨_, _, _, _, _, _, rfl⟩, by simp⟩
      · rw [cp_missingTools env hE hS hT]
        exact ⟨by simp, by simp⟩
    · rw [cp_badSuffix env hE hS]
      exact ⟨by simp, by simp⟩

/-- C1 witness: the success branch at a concrete environment. -/
theorem convert_pipeline_event_order_witness :
    ∃ m1 m2 m3 m4 m5 m6, (convert_pipeline envOk).1 =
      [Event.step 1 m1, Event.step 2 m2, Event.step 3 m3,
       Event.step 4 m4, Event.step 5 m5, Event.done m6] :=
  (convert_pipeline_event_order envOk).1 (by decide)

/-- C9: `convert_pipeline` raises `RuntimeError` without yielding any event
when the input path does not exist or its suffix is not `.acsm`; both
checks precede step 1. -/
theorem convert_pipeline_rejects_bad_input (env : PipelineEnv) :
    (env.acsmExists = false →
      convert_pipeline env =
        ([], some (.runtimeError ("File not found: " ++ env.pathStr)))) ∧
    (env.acsmExists = true → env.suffix ≠ ".acsm" →
      convert_pipeline env =
        ([], some (.runtimeError ("Not an ACSM file: " ++ env.pathStr)))) :=
  ⟨cp_noFile env, cp_badSuffix env⟩

/-- C9 witness: a concrete absent input file. -/
theorem convert_pipeline_rejects_bad_input_witness :
    envNoFile.acsmExists = false ∧
    convert_pipeline envNoFile =
      ([], some (.runtimeError ("File not found: " ++ envNoFile.pathStr))) :=
  ⟨rfl, (convert_pipeline_rejects_bad_input envNoFile).1 rfl⟩

/-- C7: when any of the three required executables fails to resolve,
`convert_pipeline` raises before yielding any event, and the message is the
deduplicated problem list: it has no duplicate entries and contains the
entry contributed by every missing tool. -/
theorem convert_pipeline_missing_tools (env : PipelineEnv)
    (h1 : env.acsmExists = true) (h2 : env.suffix = ".acsm")
    (h3 : env.toolAcsm = none ∨ env.toolActivate = none ∨ env.toolRemove = none) :
    (convert_pipeline env).1 = [] ∧
    (convert_pipeline env).2 = some (.runtimeError ("Missing components: " ++
      String.intercalate "; " (toolProblems env).dedup)) ∧
    (toolProblems env).dedup.Nodup ∧
    (env.toolAcsm = none → libgourouProblem ∈ (toolProblems env).dedup) ∧
    (env.toolActivate = none → libgourouProblem ∈ (toolProblems env).dedup) ∧
    (env.toolRemove = none → libgourouProblem ∈ (toolProblems env).dedup) := by
  have h3' : ¬toolProblems env = [] := by
    rcases h3 with h | h | h <;> simp [toolProblems, h]
  rw [cp_missingTools env h1 h2 h3']
  refine ⟨rfl, rfl, List.nodup_dedup _, ?_, ?_, ?_⟩ <;>
    intro h <;> rw [List.mem_dedup] <;> simp [toolProblems, h]

/-- C7 witness: all three tools missing in a concrete environment. -/
theorem convert_pipeline_missing_tools_witness :
    (envNoTools.acsmExists = true ∧ envNoTools.suffix = ".acsm" ∧
      envNoTools.toolAcsm = none) ∧
    (convert_pipeline envNoTools).1 = [] ∧
    (convert_pipeline envNoTools).2 = some (.runtimeError ("Missing components: " ++
      String.intercalate "; " (toolProblems envNoTools).dedup)) ∧
    (toolProblems envNoTools).dedup.Nodup ∧
    (envNoTools.toolAcsm = none → libgourouProblem ∈ (toolProblems envNoTools).dedup) ∧
    (envNoTools.toolActivate = none → libgourouProblem ∈ (toolProblems envNoTools).dedup) ∧
    (envNoTools.toolRemove = none → libgourouProblem ∈ (toolProblems envNoTools).dedup) :=
  ⟨⟨rfl, rfl, rfl⟩,
    convert_pipeline_missing_tools envNoTools rfl rfl (Or.inl rfl)⟩

end Acsm

namespace Acsm

/-- C5: for every job record and every pipeline outcome, the background
runner maps a raised `RuntimeError` to job status `"error"` with the
message preserved verbatim, and any other exception to status `"error"`
with the generically wrapped message `"Unexpected error: ..."`; in both
cases `run_conversion_job` returns a record (it is a total function of the
outcome — the exception never propagates out of the background task). -/
theorem run_conversion_job_catches (job : Job) (r : List Event × Option PyError) :
    (∀ m, r.2 = some (.runtimeError m) →
      (run_conversion_job job r).status = "error" ∧
      (run_conversion_job job r).error = some m) ∧
    (∀ m, r.2 = some (.otherError m) →
      (run_conversion_job job r).status = "error" ∧
      (run_conversion_job job r).error = some ("Unexpected error: " ++ m)) := by
  rcases r with ⟨evs, err⟩
  rcases err with _ | e
  · simp [run_conversion_job]
  · rcases e with m | m <;> simp [run_conversion_job]

/-- C5 witness: a concrete failing download (`RuntimeError`) recorded
verbatim on a fresh job record. -/
theorem run_conversion_job_catches_witness :
    (run_conversion_job (newJob "book.acsm" 0) (convert_pipeline envFulfillFails)).status
      = "error" ∧
    (run_conversion_job (newJob "book.acsm" 0) (convert_pipeline envFulfillFails)).error
      = some "Download timed out (120s). The ACSM token may be expired or the server is unreachable." :=
  (run_conversion_job_catches (newJob "book.acsm" 0) (convert_pipeline envFulfillFails)).1
    "Download timed out (120s). The ACSM token may be expired or the server is unreachable."
    (by decide)

/-- C8: polling an identifier that is not in the registry answers the
404 "Job not found" error; and for a tracked job driven by one
`convert_pipeline` run, the `current_step` field is monotonically
non-decreasing along the whole sequence of records a poller can observe
(hence across any successive polls during the run). -/
theorem job_status_poll (jobs : List (String × Job)) (jid : String)
    (env : PipelineEnv) (job : Job) (h : job.current_step = 0) :
    (jobs.lookup jid = none → job_status jobs jid = .error "Job not found") ∧
    List.Chain' (fun a b => a.current_step ≤ b.current_step)
      (jobStates job (convert_pipeline env)) := by
  constructor
  · intro hl
    simp [job_status, hl]
  · cases hE : env.acsmExists with
    | false =>
      rw [cp_noFile env hE]
      simp [jobStates, List.scanl, run_conversion_job, processEvent,
        List.chain'_cons, List.chain'_singleton, h]
    | true =>
      by_cases hS : env.suffix = ".acsm"
      · by_cases hT : toolProblems env = []
        · cases hP : env.parseResult with
          | error e =>
            rw [cp_parseError env e hE hS hT hP]
            rcases e with m | m <;>
              simp [jobStates, List.scanl, run_conversion_job, processEvent,
                List.chain'_cons, List.chain'_singleton, h]
          | ok srcText =>
            cases hR : env.registerResult with
            | error e =>
              rw [cp_registerError env e srcText hE hS hT hP hR]
              rcases e with m | m <;>
                simp [jobStates, List.scanl, run_conversion_job, processEvent,
                  List.chain'_cons, List.chain'_singleton, h]
            | ok u =>
              cases u
              cases hF : env.fulfillResult with
              | error e =>
                rw [cp_fulfillError env e srcText hE hS hT hP hR hF]
                rcases e with m | m <;>
                  simp [jobStates, List.scanl, run_conversion_job, processEvent,
                    List.chain'_cons, List.chain'_singleton, h]
              | ok u =>
                cases u
                cases hD : env.removeDrmResult with
                | error e =>
                  rw [cp_removeDrmError env e srcText hE hS hT hP hR hF hD]
                  rcases e with m | m <;>
                    simp [jobStates, List.scanl, run_conversion_job, processEvent,
                      List.chain'_cons, List.chain'_singleton, h]
                | ok u =>
                  cases u
                  rw [cp_success env srcText hE hS hT hP hR hF hD]
                  simp [jobStates, List.scanl, run_conversion_job, processEvent,
                    List.chain'_cons, List.chain'_singleton, h]
        · rw [cp_missingTools env hE hS hT]
          simp [jobStates, List.scanl, run_conversion_job, processEvent,
            List.chain'_cons, List.chain'_singleton, h]
      · rw [cp_badSuffix env hE hS]
        simp [jobStates, List.scanl, run_conversion_job, processEvent,
          List.chain'_cons, List.chain'_singleton, h]

/-- C8 witness: the empty registry rejects an unknown id, and a fresh job
record (whose `current_step` is 0) observed through a concrete successful
run yields a monotone `current_step` sequence. -/
theorem job_status_poll_witness :
    (List.lookup "book.acsm_1000" ([] : List (String × Job)) = none →
      job_status [] "book.acsm_1000" = .error "Job not found") ∧
    List.Chain' (fun a b => a.current_step ≤ b.current_step)
      (jobStates (newJob "book.acsm" 0) (convert_pipeline envOk)) :=
  job_status_poll [] "book.acsm_1000" envOk (newJob "book.acsm" 0) rfl

end Acsm

namespace Acsm

/-! ### Registry helper lemmas (Python dict/file-set operations) -/

/-- After removing every entry keyed by `stem`, lookup of `stem` fails. -/
theorem lookup_filter_self (l : List (String × ConvTask)) (stem : String) :
    (l.filter (fun p => !(p.1 == stem))).lookup stem = none := by
  induction l with
  | nil => rfl
  | cons p l ih =>
    by_cases hp : p.1 = stem
    · simp [List.filter_cons, hp, ih]
    · have hp2 : (stem == p.1) = false := by
        rw [beq_eq_false_iff_ne]
        exact fun h => hp h.symm
      simp [List.filter_cons, hp, List.lookup, hp2, ih]

/-- Dict assignment `d[stem] = t` (cons after dropping the key) leaves
exactly one entry keyed by `stem`. -/
theorem countP_after_set (l : List (String × ConvTask)) (stem : String) (t : ConvTask) :
    (((stem, t) :: l.filter (fun p => !(p.1 == stem))).countP
      (fun p => p.1 == stem)) = 1 := by
  rw [List.countP_cons]
  have h0 : (l.filter (fun p => !(p.1 == stem))).countP (fun p => p.1 == stem) = 0 := by
    rw [List.countP_eq_zero]
    intro a ha
    rcases List.mem_filter.mp ha with ⟨_, hne⟩
    simpa using hne
  simp [h0]

/-- After unlinking `stem`, the file set no longer contains it. -/
theorem contains_filter_self (l : List String) (stem : String) :
    (l.filter (fun s => !(s == stem))).contains stem = false := by
  induction l with
  | nil => rfl
  | cons a l ih =>
    by_cases ha : a = stem
    · simp [List.filter_cons, ha, ih]
    · have ha2 : (stem == a) = false := by
        rw [beq_eq_false_iff_ne]
        exact fun h => ha h.symm
      simp [List.filter_cons, ha, List.contains_cons, ha2, ih]
      exact fun h => ha h.symm

end Acsm

namespace Acsm

/-- C3: `convert_epub` rejects with the conflict response while a tracked
subprocess for the stem is still running; with 404 when `<stem>.pdf` is
absent; with the conflict response when `<stem>.epub` already exists; with
the unavailable response when `ebook-convert` cannot be located; and
otherwise launches the subprocess, recording exactly one task keyed by the
stem (the fresh, not-yet-exited task). -/
theorem convert_epub_checks (st : SupState) (stem : String) (now : Nat) :
    (taskRunning st stem = true → convert_epub st stem now = (st, .alreadyRunning)) ∧
    (taskRunning st stem = false → st.pdfFiles.contains stem = false →
      convert_epub st stem now = (st, .pdfNotFound)) ∧
    (taskRunning st stem = false → st.pdfFiles.contains stem = true →
      st.epubFiles.contains stem = true →
      convert_epub st stem now = (st, .epubExists)) ∧
    (taskRunning st stem = false → st.pdfFiles.contains stem = true →
      st.epubFiles.contains stem = false → st.toolFound = false →
      convert_epub st stem now = (st, .calibreMissing)) ∧
    (taskRunning st stem = false → st.pdfFiles.contains stem = true →
      st.epubFiles.contains stem = false → st.toolFound = true →
      (convert_epub st stem now).2 = .started ∧
      (convert_epub st stem now).1.tasks.lookup stem = some ⟨false, now⟩ ∧
      (convert_epub st stem now).1.tasks.countP (fun p => p.1 == stem) = 1) := by
  refine ⟨?_, ?_, ?_, ?_, ?_⟩ <;> intros <;>
    simp_all [convert_epub, List.lookup, countP_after_set]

/-- C3 witness: the launch branch at a concrete free state. -/
theorem convert_epub_checks_witness :
    (taskRunning stFree "book" = false ∧ stFree.pdfFiles.contains "book" = true ∧
     stFree.epubFiles.contains "book" = false ∧ stFree.toolFound = true) ∧
    ((convert_epub stFree "book" 7).2 = .started ∧
     (convert_epub stFree "book" 7).1.tasks.lookup "book" = some ⟨false, 7⟩ ∧
     (convert_epub stFree "book" 7).1.tasks.countP (fun p => p.1 == "book") = 1) :=
  ⟨⟨by decide, by decide, by decide, rfl⟩,
    (convert_epub_checks stFree "book" 7).2.2.2.2 (by decide) (by decide) (by decide) rfl⟩

/-- C4: `stop_convert` answers 404 when no task is tracked for the stem;
otherwise it reports stopped, drops the task record, and afterwards
`<stem>.epub` is absent from the output directory — independently of
whether the subprocess had already exited (the task `t` is arbitrary,
and the unlink happens whenever the artifact exists). -/
theorem stop_convert_spec (st : SupState) (stem : String) :
    (st.tasks.lookup stem = none → stop_convert st stem = (st, .notFound)) ∧
    (∀ t, st.tasks.lookup stem = some t →
      (stop_convert st stem).2 = .stopped ∧
      (stop_convert st stem).1.epubFiles.contains stem = false ∧
      (stop_convert st stem).1.tasks.lookup stem = none) := by
  constructor
  · intro hl
    simp [stop_convert, hl]
  · intro t hl
    simp [stop_convert, hl, contains_filter_self, lookup_filter_self]

/-- C4 witness: cancelling a concrete running task. -/
theorem stop_convert_spec_witness :
    (stop_convert stRunning "book").2 = .stopped ∧
    (stop_convert stRunning "book").1.epubFiles.contains "book" = false ∧
    (stop_convert stRunning "book").1.tasks.lookup "book" = none :=
  (stop_convert_spec stRunning "book").2 ⟨false, 3⟩ (by decide)

/-- C10: when the tracked task's subprocess has already exited, a new
`convert_epub` request is not rejected with the running-conflict; it
proceeds through the remaining checks, and when they pass it starts a new
subprocess and replaces the stale record with the fresh running task (again
exactly one record for the stem). -/
theorem convert_epub_stale (st : SupState) (stem : String) (now : Nat) (t : ConvTask)
    (h1 : st.tasks.lookup stem = some t) (h2 : t.procExited = true) :
    (convert_epub st stem now).2 ≠ .alreadyRunning ∧
    (st.pdfFiles.contains stem = true → st.epubFiles.contains stem = false →
      st.toolFound = true →
      (convert_epub st stem now).2 = .started ∧
      (convert_epub st stem now).1.tasks.lookup stem = some ⟨false, now⟩ ∧
      (convert_epub st stem now).1.tasks.countP (fun p => p.1 == stem) = 1) := by
  have hr : taskRunning st stem = false := by simp [taskRunning, h1, h2]
  constructor
  · unfold convert_epub
    rw [hr]
    split_ifs <;> simp_all
  · intro hpdf hepub htool
    simp_all [convert_epub, List.lookup, countP_after_set]

/-- C10 witness: a concrete stale record is replaced by a fresh task. -/
theorem convert_epub_stale_witness :
    stStale.tasks.lookup "book" = some ⟨true, 3⟩ ∧
    ((convert_epub stStale "book" 9).2 ≠ .alreadyRunning ∧
     (stStale.pdfFiles.contains "book" = true → stStale.epubFiles.contains "book" = false →
      stStale.toolFound = true →
      (convert_epub stStale "book" 9).2 = .started ∧
      (convert_epub stStale "book" 9).1.tasks.lookup "book" = some ⟨false, 9⟩ ∧
      (convert_epub stStale "book" 9).1.tasks.countP (fun p => p.1 == "book") = 1)) :=
  ⟨by decide, convert_epub_stale stStale "book" 9 ⟨true, 3⟩ (by decide) rfl⟩

end Acsm

namespace Acsm

/-! ### Decimal rendering is injective (for the job-identifier claim) -/

/-- Decoding distributes over list append. -/
theorem decodeFrom_append (l1 l2 : List Char) (acc : Nat) :
    decodeFrom acc (l1 ++ l2) = decodeFrom (decodeFrom acc l1) l2 := by
  induction l1 generalizing acc with
  | nil => rfl
  | cons c cs ih =>
    rw [List.cons_append]
    show decodeFrom (acc * 10 + (c.toNat - 48)) (cs ++ l2) =
      decodeFrom (decodeFrom (acc * 10 + (c.toNat - 48)) cs) l2
    exact ih _

/-- `Nat.toDigitsCore` only prepends to its accumulator list. -/
theorem toDigitsCore_append (fuel : Nat) : ∀ (n : Nat) (ds : List Char),
    Nat.toDigitsCore 10 fuel n ds = Nat.toDigitsCore 10 fuel n [] ++ ds := by
  induction fuel with
  | zero => intro n ds; simp [Nat.toDigitsCore]
  | succ f ih =>
    intro n ds
    simp only [Nat.toDigitsCore]
    by_cases h : n / 10 = 0
    · simp [h]
    · rw [if_neg h, if_neg h, ih (n / 10) (Nat.digitChar (n % 10) :: ds),
        ih (n / 10) [Nat.digitChar (n % 10)]]
      simp

/-- A decimal digit renders to the character whose code decodes back to it. -/
theorem digitChar_val (d : Nat) (h : d < 10) : (Nat.digitChar d).toNat - 48 = d := by
  interval_cases d <;> rfl

/-- `decodeFrom 0` is a left inverse of the core decimal rendering. -/
theorem decode_toDigitsCore (fuel : Nat) : ∀ n : Nat, 0 < fuel → n < 10 ^ fuel →
    decodeFrom 0 (Nat.toDigitsCore 10 fuel n []) = n := by
  induction fuel with
  | zero => intro n h; omega
  | succ f ih =>
    intro n hf hn
    simp only [Nat.toDigitsCore]
    by_cases h : n / 10 = 0
    · rw [if_pos h]
      show decodeFrom (0 * 10 + ((Nat.digitChar (n % 10)).toNat - 48)) [] = n
      rw [digitChar_val (n % 10) (Nat.mod_lt n (by norm_num))]
      show 0 * 10 + n % 10 = n
      omega
    · rw [if_neg h]
      rw [toDigitsCore_append f (n / 10) [Nat.digitChar (n % 10)]]
      rw [decodeFrom_append]
      have hf2 : 0 < f := by
        rcases Nat.eq_zero_or_pos f with h0 | hp
        · subst h0
          simp at hn
          omega
        · exact hp
      have hlt : n / 10 < 10 ^ f := by
        rw [Nat.div_lt_iff_lt_mul (by norm_num : 0 < 10)]
        rw [pow_succ] at hn
        exact hn
      rw [ih (n / 10) hf2 hlt]
      show (n / 10) * 10 + ((Nat.digitChar (n % 10)).toNat - 48) = n
      rw [digitChar_val (n % 10) (Nat.mod_lt n (by norm_num))]
      omega

/-- The decimal rendering of a natural number is injective. -/
theorem reprData_inj (m n : Nat) (h : (Nat.repr m).data = (Nat.repr n).data) : m = n := by
  have hm : decodeFrom 0 (Nat.toDigitsCore 10 (m + 1) m []) = m :=
    decode_toDigitsCore (m + 1) m (Nat.succ_pos m)
      (lt_of_lt_of_le (Nat.lt_pow_self (by norm_num) m)
        (Nat.pow_le_pow_right (by norm_num) (Nat.le_succ m)))
  have hn : decodeFrom 0 (Nat.toDigitsCore 10 (n + 1) n []) = n :=
    decode_toDigitsCore (n + 1) n (Nat.succ_pos n)
      (lt_of_lt_of_le (Nat.lt_pow_self (by norm_num) n)
        (Nat.pow_le_pow_right (by norm_num) (Nat.le_succ n)))
  have hd : Nat.toDigitsCore 10 (m + 1) m [] = Nat.toDigitsCore 10 (n + 1) n [] := h
  rw [← hm, hd, hn]

/-- C2 counterexample: two distinct submission instants (here 1000.1s and
1000.9s on the millisecond clock) of the same file name produce the *same*
job identifier, because `int(time.time())` truncates to whole seconds —
the claimed uniqueness across concurrent same-name submissions fails. -/
theorem job_id_not_unique :
    job_id "book.acsm" 1000100 = job_id "book.acsm" 1000900 ∧
    (1000100 : Nat) ≠ 1000900 :=
  ⟨rfl, by decide⟩

/-- C2 (amended): for a fixed sanitized file name, two submissions receive
the same job identifier exactly when their start timestamps truncate to the
same integer second; identifiers are therefore distinct across different
seconds, but same-second submissions of the same name collide. -/
theorem job_id_eq_iff (f : String) (t1 t2 : Nat) :
    job_id f t1 = job_id f t2 ↔ t1 / 1000 = t2 / 1000 := by
  constructor
  · intro h
    have hd := congrArg String.data h
    simp only [job_id, String.data_append] at hd
    have h1 := List.append_cancel_left hd
    exact reprData_inj _ _ h1
  · intro h
    simp [job_id, h]

/-- C6 counterexample: a source text containing both the `.pdf` marker and
the `output=epub` marker is detected as `"pdf"` — the claim's epub rule
("returns epub when the text contains output=epub") fails because the code
tests the PDF markers first. -/
theorem detect_format_not_epub_on_mixed :
    detect_format (some "book.pdf?output=epub") = "pdf" ∧
    strContains (lowerStr "book.pdf?output=epub") "output=epub" = true :=
  ⟨rfl, rfl⟩

/-- C6 (amended): detection returns `"pdf"` when the lowercased text
contains `.pdf` or `output=pdf` (this rule has priority); otherwise
`"epub"` when it contains `.epub` or `output=epub`; otherwise `"pdf"`;
an absent element or empty text also yields `"pdf"`. -/
theorem detect_format_cases (s : String) :
    detect_format none = "pdf" ∧
    detect_format (some "") = "pdf" ∧
    (s ≠ "" →
      (strContains (lowerStr s) ".pdf" || strContains (lowerStr s) "output=pdf") = true →
      detect_format (some s) = "pdf") ∧
    (s ≠ "" →
      (strContains (lowerStr s) ".pdf" || strContains (lowerStr s) "output=pdf") = false →
      (strContains (lowerStr s) ".epub" || strContains (lowerStr s) "output=epub") = true →
      detect_format (some s) = "epub") ∧
    (s ≠ "" →
      (strContains (lowerStr s) ".pdf" || strContains (lowerStr s) "output=pdf") = false →
      (strContains (lowerStr s) ".epub" || strContains (lowerStr s) "output=epub") = false →
      detect_format (some s) = "pdf") := by
  refine ⟨rfl, rfl, ?_, ?_, ?_⟩ <;> intros <;> simp_all [detect_format]

/-- C6 witness: the epub branch of the amended detection at a concrete URL. -/
theorem detect_format_cases_witness :
    ("http://x/file.epub" ≠ "" ∧
      (strContains (lowerStr "http://x/file.epub") ".pdf" ||
        strContains (lowerStr "http://x/file.epub") "output=pdf") = false ∧
      (strContains (lowerStr "http://x/file.epub") ".epub" ||
        strContains (lowerStr "http://x/file.epub") "output=epub") = true) ∧
    detect_format (some "http://x/file.epub") = "epub" :=
  ⟨⟨by decide, by decide, by decide⟩,
    (detect_format_cases "http://x/file.epub").2.2.2.1 (by decide) (by decide) (by decide)⟩

end Acsm
